import Mathlib

/-!
Shallow embedding of `llm/causallm/quant.py` (PaddleNLP quantization
orchestration).  The module builds quantization configurations from string
flags, sequences calibration passes (Shift, Smooth, PTQ) and looks up a
per-model-family config record.  Library-provided components (quanters,
observers, samplers, search procedures, the calibration loop) are modelled
as inert data constructors / logged events: the module under verification
only selects and sequences them, never runs their numerics.
-/

/-- The layer classes the module wires quantizers onto or maps to quantized
replacements.  `Linear` stands for `paddle.nn.Linear`. -/
inductive LayerType where
  | LoRALinear
  | Linear
  | ColumnParallelLinear
  | RowParallelLinear
  | QuantedLoRALinear
  | QuantizedColumnParallelLinear
  | QuantizedRowParallelLinear
  deriving DecidableEq, Repr

/-- Quanter layer classes passed as the `quanter` argument of `PACTQuanter`. -/
inductive QuanterLayer where
  | FakeQuanterWithAbsMaxObserverLayer
  deriving DecidableEq, Repr

/-- The quanter / observer objects the module constructs.  Their numerics are
external; only their identity and constructor arguments matter here. -/
inductive Quanter where
  | PACTQuanter (quanter : QuanterLayer) (init_value : Nat) (dtype : String)
  | FakeQuanterChannelWiseAbsMaxObserver (bit_length : Nat) (dtype : String)
  | AbsmaxObserver
  | AbsMaxChannelWiseWeightObserver
  deriving DecidableEq, Repr

/-- `paddle.quantization.QuantConfig`: the global activation/weight defaults
given to the constructor, the qat layer mappings added by
`add_qat_layer_mapping`, and the per-layer-type (weight, activation) pairs
added by `add_type_config`, in insertion order. -/
structure QuantConfig where
  activation : Option Quanter
  weight : Option Quanter
  qat_layer_mappings : List (LayerType × LayerType)
  type_configs : List (LayerType × Option Quanter × Option Quanter)
  deriving DecidableEq, Repr

/-- `QuantConfig.add_qat_layer_mapping(source, target)`. -/
def QuantConfig.add_qat_layer_mapping (c : QuantConfig) (src dst : LayerType) :
    QuantConfig :=
  { c with qat_layer_mappings := c.qat_layer_mappings ++ [(src, dst)] }

/-- `QuantConfig.add_type_config(layers, weight=…, activation=…)`; the Python
call accepts a single layer class or a list, modelled uniformly as a list. -/
def QuantConfig.add_type_config (c : QuantConfig) (layers : List LayerType)
    (weight activation : Option Quanter) : QuantConfig :=
  { c with type_configs := c.type_configs ++ layers.map (fun l => (l, weight, activation)) }

/-- Errors raised by the module. -/
inductive PyError where
  | valueError (msg : String)
  | notImplementedError (msg : String)
  deriving DecidableEq, Repr

/-- In-place mutations applied to a model object by the quantizer engines. -/
inductive ModelOp where
  | qatQuantized (config : QuantConfig)
  | ptqQuantized (config : QuantConfig)
  | ptqConverted
  deriving DecidableEq, Repr

/-- A model object, tracked as the sequence of in-place quantization
operations that have been applied to it. -/
abbrev PyModel := List ModelOp

/-- The `quant_args` record: the configuration fields this module reads. -/
structure QuantArgs where
  qat_type : String
  shift_sampler : String
  shift_all_linears : Bool
  shift_step : Nat
  smooth_sampler : String
  smooth_piecewise_search : Bool
  smooth_k_piece : Nat
  smooth_search_piece : Bool
  smooth_all_linears : Bool
  smooth_step : Nat
  ptq_step : Nat
  deriving DecidableEq, Repr

/-- `create_qat_model(quant_args, model, dtype)` from quant.py lines 41-63.
The result pairs the final state of the caller's model object (Python
argument aliasing: unchanged when the function raises) with the outcome:
the returned model, or the raised error. -/
def create_qat_model (quant_args : QuantArgs) (model : PyModel) (dtype : String) :
    PyModel × Except PyError PyModel :=
  let q_config := QuantConfig.mk none none [] []
  let q_config := q_config.add_qat_layer_mapping LayerType.LoRALinear LayerType.QuantedLoRALinear
  let finish := fun (activation weight : Option Quanter) =>
    let q_config := q_config.add_type_config [LayerType.LoRALinear] weight activation
    let q_config := q_config.add_type_config [LayerType.Linear] weight activation
    let model := model ++ [ModelOp.qatQuantized q_config]
    (model, Except.ok model)
  if quant_args.qat_type = "A8W8" then
    finish (some (Quanter.PACTQuanter QuanterLayer.FakeQuanterWithAbsMaxObserverLayer 20 dtype))
      (some (Quanter.FakeQuanterChannelWiseAbsMaxObserver 8 "float32"))
  else if quant_args.qat_type = "W4" then
    finish none (some (Quanter.FakeQuanterChannelWiseAbsMaxObserver 4 "float32"))
  else if quant_args.qat_type = "A8W4" then
    finish (some (Quanter.PACTQuanter QuanterLayer.FakeQuanterWithAbsMaxObserverLayer 20 dtype))
      (some (Quanter.FakeQuanterChannelWiseAbsMaxObserver 4 "float32"))
  else
    (model, Except.error (PyError.valueError "qat_type should be one of [\x27A8W8\x27, \x27W4\x27, \x27A8W4\x27]"))

/-- Sampler objects from `paddleslim.quant.advanced`. -/
inductive Sampler where
  | EMASampler
  | MultiStepSampler
  deriving DecidableEq, Repr

/-- `paddleslim.quant.advanced.PieceWiseSearch` constructor arguments.
Python float literals are carried as exact rationals. -/
structure PieceWiseSearch where
  k_piece : Nat
  bits_length : Nat
  search_piece : Bool
  search_alpha_min : ℚ
  search_alpha_max : ℚ
  search_scale_min : ℚ
  search_scale_max : ℚ
  weight_quant_method : String
  act_quant_method : String
  deriving DecidableEq, Repr

/-- The per-model-family config record, a Python dict of boolean flags kept
in literal key order. -/
abbrev PtqModelConfig := List (String × Bool)

/-- The observable calls the calibration-pass wrappers make, in program
order: transform construction, the bounded calibration loop, the weight
commits, and the PTQ quantize/convert calls on `trainer.model`. -/
inductive Ev where
  | shiftCreated (model_config : PtqModelConfig) (sample_function : Option Sampler)
      (shift_all_linears : Bool)
  | smoothCreated (model_config : PtqModelConfig) (alpha : ℚ)
      (smooth_all_linears : Bool) (sample_function : Option Sampler)
      (search_function : Option PieceWiseSearch)
  | ptqLoop (description : String) (max_eval_iters : Nat)
  | shiftUpdateWeight
  | smoothUpdateWeight
  | ptqQuantize (config : QuantConfig)
  | ptqConvert
  deriving DecidableEq, Repr

/-- The trainer: the model object it owns and the log of calls made through
it (temporal order of the events is the list order). -/
structure Trainer where
  model : PyModel
  log : List Ev
  deriving DecidableEq, Repr

/-- The data loader passed through to the calibration loop (opaque here). -/
abbrev Dataloader := Unit

/-- `trainer.ptq_loop(dataloader, description=…, max_eval_iters=…)`: runs the
externally owned calibration loop; its numerics are opaque, only the call
and its bound are recorded. -/
def Trainer.ptq_loop (t : Trainer) (ptq_dataloader : Dataloader)
    (description : String) (max_eval_iters : Nat) : Trainer :=
  let _ := ptq_dataloader
  { t with log := t.log ++ [Ev.ptqLoop description max_eval_iters] }

/-- `apply_shift(quant_args, trainer, ptq_dataloader, ptq_model_config)` from
quant.py lines 66-81. -/
def apply_shift (quant_args : QuantArgs) (trainer : Trainer)
    (ptq_dataloader : Dataloader) (ptq_model_config : PtqModelConfig) : Trainer :=
  let shift_sampler := if quant_args.shift_sampler = "ema" then some Sampler.EMASampler else none
  let trainer :=
    { trainer with
      log := trainer.log ++
        [Ev.shiftCreated ptq_model_config shift_sampler quant_args.shift_all_linears] }
  let trainer := trainer.ptq_loop ptq_dataloader "Shift" quant_args.shift_step
  { trainer with log := trainer.log ++ [Ev.shiftUpdateWeight] }

/-- `apply_smooth(quant_args, trainer, ptq_dataloader, ptq_model_config)` from
quant.py lines 84-115. -/
def apply_smooth (quant_args : QuantArgs) (trainer : Trainer)
    (ptq_dataloader : Dataloader) (ptq_model_config : PtqModelConfig) : Trainer :=
  let smooth_sampler :=
    if quant_args.smooth_sampler = "multi_step" then some Sampler.MultiStepSampler else none
  let search_func : Option PieceWiseSearch :=
    if quant_args.smooth_piecewise_search then
      some
        { k_piece := quant_args.smooth_k_piece
          bits_length := 8
          search_piece := quant_args.smooth_search_piece
          search_alpha_min := 0.2
          search_alpha_max := 0.8
          search_scale_min := 1.0
          search_scale_max := 5.0
          weight_quant_method := "abs_max_channel_wise"
          act_quant_method := "abs_max" }
    else none
  let trainer :=
    { trainer with
      log := trainer.log ++
        [Ev.smoothCreated ptq_model_config 0.5 quant_args.smooth_all_linears
          smooth_sampler search_func] }
  let trainer := trainer.ptq_loop ptq_dataloader "Smooth" quant_args.smooth_step
  { trainer with log := trainer.log ++ [Ev.smoothUpdateWeight] }

/-- `apply_ptq(quant_args, trainer, ptq_dataloader)` from quant.py lines
118-137.  `ptq.quantize` and `ptq.convert` mutate the model in place and
their results are assigned back to `trainer.model`. -/
def apply_ptq (quant_args : QuantArgs) (trainer : Trainer)
    (ptq_dataloader : Dataloader) : Trainer :=
  let q_config := QuantConfig.mk none none [] []
  let act_quanter := Quanter.AbsmaxObserver
  let weight_quanter := Quanter.AbsMaxChannelWiseWeightObserver
  let q_config := q_config.add_qat_layer_mapping LayerType.ColumnParallelLinear
    LayerType.QuantizedColumnParallelLinear
  let q_config := q_config.add_qat_layer_mapping LayerType.RowParallelLinear
    LayerType.QuantizedRowParallelLinear
  let q_config := q_config.add_type_config
    [LayerType.Linear, LayerType.ColumnParallelLinear, LayerType.RowParallelLinear,
      LayerType.QuantedLoRALinear]
    (some weight_quanter) (some act_quanter)
  let trainer :=
    { trainer with
      model := trainer.model ++ [ModelOp.ptqQuantized q_config]
      log := trainer.log ++ [Ev.ptqQuantize q_config] }
  let trainer := trainer.ptq_loop ptq_dataloader "PTQ" quant_args.ptq_step
  { trainer with
    model := trainer.model ++ [ModelOp.ptqConverted]
    log := trainer.log ++ [Ev.ptqConvert] }

/-- The model wrapped by a `PrefixModelForCausalLM` (only its
`base_model_prefix` attribute is read by this module). -/
structure InnerModel where
  base_model_prefix : String
  deriving DecidableEq, Repr

/-- A model as seen by `get_ptq_model_config`: whether it is a
`PrefixModelForCausalLM`, its own `base_model_prefix` attribute, its wrapped
`model` (meaningful when it is a prefix wrapper), and its opaque `str()`
rendering used in the f-string of the NotImplementedError message. -/
structure NLModel where
  isPrefixModelForCausalLM : Bool
  base_model_prefix : String
  model : InnerModel
  str_repr : String
  deriving DecidableEq, Repr

/-- The prefix the dispatch of `get_ptq_model_config` resolves:
`model.model.base_model_prefix` for a `PrefixModelForCausalLM`, otherwise
`model.base_model_prefix`. -/
def resolved_base_model_prefix (m : NLModel) : String :=
  if m.isPrefixModelForCausalLM then m.model.base_model_prefix
  else m.base_model_prefix

/-- `get_ptq_model_config(model)` from quant.py lines 140-158. -/
def get_ptq_model_config (model : NLModel) : Except PyError PtqModelConfig :=
  let base_model_prefix :=
    if model.isPrefixModelForCausalLM then model.model.base_model_prefix
    else model.base_model_prefix
  if base_model_prefix ∈ ["chatglm"] then
    Except.error (PyError.notImplementedError
      (model.str_repr ++ " does not support Shift or Smooth."))
  else if base_model_prefix = "chatglm_v2" then
    Except.ok [("fused_qkv", false), ("parallel_ffn", false)]
  else if base_model_prefix = "bloom" then
    Except.ok [("fused_qkv", true), ("parallel_ffn", false)]
  else if base_model_prefix = "llama" then
    Except.ok [("fused_qkv", false), ("parallel_ffn", true)]
  else
    Except.error (PyError.valueError
      ("Unknown base_model_prefix: " ++ model.base_model_prefix ++
        ". Supported base_model_prefix list: chatglm, bloom, llama."))

/-- A concrete `QuantArgs` record with the given `qat_type`, used to
instantiate universally quantified theorems at explicit inputs. -/
def mkQuantArgs (qt : String) : QuantArgs :=
  { qat_type := qt
    shift_sampler := "ema"
    shift_all_linears := true
    shift_step := 8
    smooth_sampler := "multi_step"
    smooth_piecewise_search := true
    smooth_k_piece := 3
    smooth_search_piece := true
    smooth_all_linears := false
    smooth_step := 16
    ptq_step := 32 }

/-- A concrete non-wrapper model with the given `base_model_prefix`, used to
instantiate universally quantified theorems at explicit inputs. -/
def mkNLModel (pfx : String) : NLModel :=
  { isPrefixModelForCausalLM := false
    base_model_prefix := pfx
    model := { base_model_prefix := "" }
    str_repr := "Model()" }

/-- A concrete `PrefixModelForCausalLM` wrapper whose own
`base_model_prefix` attribute and wrapped model prefix are given, used to
instantiate universally quantified theorems at explicit inputs. -/
def mkWrappedNLModel (own inner : String) : NLModel :=
  { isPrefixModelForCausalLM := true
    base_model_prefix := own
    model := { base_model_prefix := inner }
    str_repr := "PrefixModelForCausalLM()" }

/-- Claim C1: for each valid `qat_type`, `create_qat_model` builds the
documented activation/weight quanter pairing — `A8W8`: PACTQuanter over
`FakeQuanterWithAbsMaxObserverLayer` with `init_value` 20 and a channel-wise
abs-max fake-quanter with `bit_length` 8; `W4`: no activation quanter and
`bit_length` 4; `A8W4`: the same PACTQuanter and `bit_length` 4 — and
registers the same (weight, activation) pair for both `LoRALinear` and
`nn.Linear` in the config consumed by `qat.quantize`. -/
theorem create_qat_model_pairings (a : QuantArgs) (m : PyModel) (dtype : String) :
    (a.qat_type = "A8W8" →
      (create_qat_model a m dtype).2 = Except.ok (m ++ [ModelOp.qatQuantized
        { activation := none, weight := none
          qat_layer_mappings := [(LayerType.LoRALinear, LayerType.QuantedLoRALinear)]
          type_configs :=
            [(LayerType.LoRALinear,
                some (Quanter.FakeQuanterChannelWiseAbsMaxObserver 8 "float32"),
                some (Quanter.PACTQuanter QuanterLayer.FakeQuanterWithAbsMaxObserverLayer 20 dtype)),
              (LayerType.Linear,
                some (Quanter.FakeQuanterChannelWiseAbsMaxObserver 8 "float32"),
                some (Quanter.PACTQuanter QuanterLayer.FakeQuanterWithAbsMaxObserverLayer 20 dtype))] }]))
    ∧ (a.qat_type = "W4" →
      (create_qat_model a m dtype).2 = Except.ok (m ++ [ModelOp.qatQuantized
        { activation := none, weight := none
          qat_layer_mappings := [(LayerType.LoRALinear, LayerType.QuantedLoRALinear)]
          type_configs :=
            [(LayerType.LoRALinear,
                some (Quanter.FakeQuanterChannelWiseAbsMaxObserver 4 "float32"), none),
              (LayerType.Linear,
                some (Quanter.FakeQuanterChannelWiseAbsMaxObserver 4 "float32"), none)] }]))
    ∧ (a.qat_type = "A8W4" →
      (create_qat_model a m dtype).2 = Except.ok (m ++ [ModelOp.qatQuantized
        { activation := none, weight := none
          qat_layer_mappings := [(LayerType.LoRALinear, LayerType.QuantedLoRALinear)]
          type_configs :=
            [(LayerType.LoRALinear,
                some (Quanter.FakeQuanterChannelWiseAbsMaxObserver 4 "float32"),
                some (Quanter.PACTQuanter QuanterLayer.FakeQuanterWithAbsMaxObserverLayer 20 dtype)),
              (LayerType.Linear,
                some (Quanter.FakeQuanterChannelWiseAbsMaxObserver 4 "float32"),
                some (Quanter.PACTQuanter QuanterLayer.FakeQuanterWithAbsMaxObserverLayer 20 dtype))] }])) := by
  refine ⟨?_, ?_, ?_⟩ <;> intro h <;>
    simp [create_qat_model, QuantConfig.add_qat_layer_mapping, QuantConfig.add_type_config, h]

/-- Witness for C1: the three valid modes evaluated at explicit inputs. -/
theorem create_qat_model_pairings_witness :
    (create_qat_model (mkQuantArgs "A8W8") [] "float16").2 = Except.ok [ModelOp.qatQuantized
        { activation := none, weight := none
          qat_layer_mappings := [(LayerType.LoRALinear, LayerType.QuantedLoRALinear)]
          type_configs :=
            [(LayerType.LoRALinear,
                some (Quanter.FakeQuanterChannelWiseAbsMaxObserver 8 "float32"),
                some (Quanter.PACTQuanter QuanterLayer.FakeQuanterWithAbsMaxObserverLayer 20 "float16")),
              (LayerType.Linear,
                some (Quanter.FakeQuanterChannelWiseAbsMaxObserver 8 "float32"),
                some (Quanter.PACTQuanter QuanterLayer.FakeQuanterWithAbsMaxObserverLayer 20 "float16"))] }]
    ∧ (create_qat_model (mkQuantArgs "W4") [] "float16").2 = Except.ok [ModelOp.qatQuantized
        { activation := none, weight := none
          qat_layer_mappings := [(LayerType.LoRALinear, LayerType.QuantedLoRALinear)]
          type_configs :=
            [(LayerType.LoRALinear,
                some (Quanter.FakeQuanterChannelWiseAbsMaxObserver 4 "float32"), none),
              (LayerType.Linear,
                some (Quanter.FakeQuanterChannelWiseAbsMaxObserver 4 "float32"), none)] }]
    ∧ (create_qat_model (mkQuantArgs "A8W4") [] "float16").2 = Except.ok [ModelOp.qatQuantized
        { activation := none, weight := none
          qat_layer_mappings := [(LayerType.LoRALinear, LayerType.QuantedLoRALinear)]
          type_configs :=
            [(LayerType.LoRALinear,
                some (Quanter.FakeQuanterChannelWiseAbsMaxObserver 4 "float32"),
                some (Quanter.PACTQuanter QuanterLayer.FakeQuanterWithAbsMaxObserverLayer 20 "float16")),
              (LayerType.Linear,
                some (Quanter.FakeQuanterChannelWiseAbsMaxObserver 4 "float32"),
                some (Quanter.PACTQuanter QuanterLayer.FakeQuanterWithAbsMaxObserverLayer 20 "float16"))] }] :=
  ⟨(create_qat_model_pairings (mkQuantArgs "A8W8") [] "float16").1 rfl,
   (create_qat_model_pairings (mkQuantArgs "W4") [] "float16").2.1 rfl,
   (create_qat_model_pairings (mkQuantArgs "A8W4") [] "float16").2.2 rfl⟩

/-- Claim C2: `create_qat_model` raises a ValueError exactly on the
`qat_type` strings outside the set A8W8, W4, A8W4, and succeeds (returning
a model, raising nothing) exactly on the strings inside it. -/
theorem create_qat_model_valueError_iff (a : QuantArgs) (m : PyModel) (dtype : String) :
    ((∃ s, (create_qat_model a m dtype).2 = Except.error (PyError.valueError s)) ↔
      ¬(a.qat_type = "A8W8" ∨ a.qat_type = "W4" ∨ a.qat_type = "A8W4"))
    ∧ ((∃ m2, (create_qat_model a m dtype).2 = Except.ok m2) ↔
      (a.qat_type = "A8W8" ∨ a.qat_type = "W4" ∨ a.qat_type = "A8W4")) := by
  unfold create_qat_model
  split_ifs with h1 h2 h3 <;> simp_all

/-- Claim C9: on an invalid `qat_type` the ValueError is raised before
`qat.quantize` is invoked, so the caller's model object is returned with no
quantization operation applied to it. -/
theorem create_qat_model_invalid_leaves_model (a : QuantArgs) (m : PyModel) (dtype : String)
    (h : ¬(a.qat_type = "A8W8" ∨ a.qat_type = "W4" ∨ a.qat_type = "A8W4")) :
    create_qat_model a m dtype =
      (m, Except.error (PyError.valueError
        "qat_type should be one of [\x27A8W8\x27, \x27W4\x27, \x27A8W4\x27]")) := by
  push_neg at h
  obtain ⟨h1, h2, h3⟩ := h
  simp [create_qat_model, h1, h2, h3]

/-- Witness for C9: the invalid mode string A4W4 evaluated on a fresh
model. -/
theorem create_qat_model_invalid_leaves_model_witness :
    create_qat_model (mkQuantArgs "A4W4") [] "float16" =
      ([], Except.error (PyError.valueError
        "qat_type should be one of [\x27A8W8\x27, \x27W4\x27, \x27A8W4\x27]")) :=
  create_qat_model_invalid_leaves_model (mkQuantArgs "A4W4") [] "float16" (by decide)

/-- Claim C6: in both `apply_shift` and `apply_smooth` the calibration loop
(`trainer.ptq_loop`, bounded by `shift_step` resp. `smooth_step`) runs
first, and only after it completes is `update_weight` called on the
transform; the full appended event sequence is construction, loop, commit. -/
theorem calibration_loop_before_update_weight (a : QuantArgs) (t : Trainer)
    (dl : Dataloader) (cfg : PtqModelConfig) :
    (apply_shift a t dl cfg).log = t.log ++
      [Ev.shiftCreated cfg
        (if a.shift_sampler = "ema" then some Sampler.EMASampler else none)
        a.shift_all_linears,
       Ev.ptqLoop "Shift" a.shift_step,
       Ev.shiftUpdateWeight]
    ∧ (apply_smooth a t dl cfg).log = t.log ++
      [Ev.smoothCreated cfg 0.5 a.smooth_all_linears
        (if a.smooth_sampler = "multi_step" then some Sampler.MultiStepSampler else none)
        (if a.smooth_piecewise_search then
          some
            { k_piece := a.smooth_k_piece
              bits_length := 8
              search_piece := a.smooth_search_piece
              search_alpha_min := 0.2
              search_alpha_max := 0.8
              search_scale_min := 1.0
              search_scale_max := 5.0
              weight_quant_method := "abs_max_channel_wise"
              act_quant_method := "abs_max" }
         else none),
       Ev.ptqLoop "Smooth" a.smooth_step,
       Ev.smoothUpdateWeight] := by
  constructor <;> simp [apply_shift, apply_smooth, Trainer.ptq_loop]

/-- Claim C8: `apply_smooth` passes a `PieceWiseSearch` to the Smooth
transform exactly when `smooth_piecewise_search` is set; when set it
searches alpha in [0.2, 0.8] and scale in [1.0, 5.0] with `k_piece` and
`search_piece` taken from `quant_args`, and when unset the search function
is None. -/
theorem apply_smooth_search_function (a : QuantArgs) (t : Trainer)
    (dl : Dataloader) (cfg : PtqModelConfig) :
    (a.smooth_piecewise_search = true →
      (apply_smooth a t dl cfg).log = t.log ++
        [Ev.smoothCreated cfg 0.5 a.smooth_all_linears
          (if a.smooth_sampler = "multi_step" then some Sampler.MultiStepSampler else none)
          (some
            { k_piece := a.smooth_k_piece
              bits_length := 8
              search_piece := a.smooth_search_piece
              search_alpha_min := 0.2
              search_alpha_max := 0.8
              search_scale_min := 1.0
              search_scale_max := 5.0
              weight_quant_method := "abs_max_channel_wise"
              act_quant_method := "abs_max" }),
         Ev.ptqLoop "Smooth" a.smooth_step,
         Ev.smoothUpdateWeight])
    ∧ (a.smooth_piecewise_search = false →
      (apply_smooth a t dl cfg).log = t.log ++
        [Ev.smoothCreated cfg 0.5 a.smooth_all_linears
          (if a.smooth_sampler = "multi_step" then some Sampler.MultiStepSampler else none)
          none,
         Ev.ptqLoop "Smooth" a.smooth_step,
         Ev.smoothUpdateWeight]) := by
  constructor <;> intro h <;> simp [apply_smooth, Trainer.ptq_loop, h]

/-- Witness for C8: both settings of `smooth_piecewise_search` evaluated at
explicit inputs. -/
theorem apply_smooth_search_function_witness :
    (apply_smooth (mkQuantArgs "A8W8") (Trainer.mk [] []) () []).log =
      [Ev.smoothCreated [] 0.5 false (some Sampler.MultiStepSampler)
        (some
          { k_piece := 3
            bits_length := 8
            search_piece := true
            search_alpha_min := 0.2
            search_alpha_max := 0.8
            search_scale_min := 1.0
            search_scale_max := 5.0
            weight_quant_method := "abs_max_channel_wise"
            act_quant_method := "abs_max" }),
       Ev.ptqLoop "Smooth" 16,
       Ev.smoothUpdateWeight]
    ∧ (apply_smooth { mkQuantArgs "A8W8" with smooth_piecewise_search := false }
        (Trainer.mk [] []) () []).log =
      [Ev.smoothCreated [] 0.5 false (some Sampler.MultiStepSampler) none,
       Ev.ptqLoop "Smooth" 16,
       Ev.smoothUpdateWeight] :=
  ⟨(apply_smooth_search_function (mkQuantArgs "A8W8") (Trainer.mk [] []) () []).1 rfl,
   (apply_smooth_search_function { mkQuantArgs "A8W8" with smooth_piecewise_search := false }
      (Trainer.mk [] []) () []).2 rfl⟩

/-- Claim C7: `apply_ptq` performs, in order on `trainer.model`, the PTQ
quantize (result assigned back), the calibration loop bounded by
`ptq_step`, and the PTQ convert (result assigned back); the model ends
with exactly the quantize and convert operations applied. -/
theorem apply_ptq_order (a : QuantArgs) (t : Trainer) (dl : Dataloader) :
    (apply_ptq a t dl).log = t.log ++
      [Ev.ptqQuantize
        { activation := none, weight := none
          qat_layer_mappings :=
            [(LayerType.ColumnParallelLinear, LayerType.QuantizedColumnParallelLinear),
             (LayerType.RowParallelLinear, LayerType.QuantizedRowParallelLinear)]
          type_configs :=
            [(LayerType.Linear, some Quanter.AbsMaxChannelWiseWeightObserver,
                some Quanter.AbsmaxObserver),
             (LayerType.ColumnParallelLinear, some Quanter.AbsMaxChannelWiseWeightObserver,
                some Quanter.AbsmaxObserver),
             (LayerType.RowParallelLinear, some Quanter.AbsMaxChannelWiseWeightObserver,
                some Quanter.AbsmaxObserver),
             (LayerType.QuantedLoRALinear, some Quanter.AbsMaxChannelWiseWeightObserver,
                some Quanter.AbsmaxObserver)] },
       Ev.ptqLoop "PTQ" a.ptq_step,
       Ev.ptqConvert]
    ∧ (apply_ptq a t dl).model = t.model ++
      [ModelOp.ptqQuantized
        { activation := none, weight := none
          qat_layer_mappings :=
            [(LayerType.ColumnParallelLinear, LayerType.QuantizedColumnParallelLinear),
             (LayerType.RowParallelLinear, LayerType.QuantizedRowParallelLinear)]
          type_configs :=
            [(LayerType.Linear, some Quanter.AbsMaxChannelWiseWeightObserver,
                some Quanter.AbsmaxObserver),
             (LayerType.ColumnParallelLinear, some Quanter.AbsMaxChannelWiseWeightObserver,
                some Quanter.AbsmaxObserver),
             (LayerType.RowParallelLinear, some Quanter.AbsMaxChannelWiseWeightObserver,
                some Quanter.AbsmaxObserver),
             (LayerType.QuantedLoRALinear, some Quanter.AbsMaxChannelWiseWeightObserver,
                some Quanter.AbsmaxObserver)] },
       ModelOp.ptqConverted] := by
  constructor <;>
    simp [apply_ptq, Trainer.ptq_loop, QuantConfig.add_qat_layer_mapping,
      QuantConfig.add_type_config]

/-- `get_ptq_model_config` written through the resolved dispatch prefix:
bridging lemma shared by the lookup theorems. -/
theorem get_ptq_model_config_resolved (m : NLModel) :
    get_ptq_model_config m =
      (if resolved_base_model_prefix m ∈ ["chatglm"] then
        Except.error (PyError.notImplementedError
          (m.str_repr ++ " does not support Shift or Smooth."))
      else if resolved_base_model_prefix m = "chatglm_v2" then
        Except.ok [("fused_qkv", false), ("parallel_ffn", false)]
      else if resolved_base_model_prefix m = "bloom" then
        Except.ok [("fused_qkv", true), ("parallel_ffn", false)]
      else if resolved_base_model_prefix m = "llama" then
        Except.ok [("fused_qkv", false), ("parallel_ffn", true)]
      else
        Except.error (PyError.valueError
          ("Unknown base_model_prefix: " ++ m.base_model_prefix ++
            ". Supported base_model_prefix list: chatglm, bloom, llama."))) := rfl

/-- Claim C3: for resolved prefixes llama, bloom and chatglm_v2 the lookup
returns exactly the documented flag records. -/
theorem get_ptq_model_config_flags (m : NLModel) :
    ( resolved_base_model_prefix m = "llama" →
      get_ptq_model_config m = Except.ok [("fused_qkv", false), ("parallel_ffn", true)])
    ∧ ( resolved_base_model_prefix m = "bloom" →
      get_ptq_model_config m = Except.ok [("fused_qkv", true), ("parallel_ffn", false)])
    ∧ ( resolved_base_model_prefix m = "chatglm_v2" →
      get_ptq_model_config m = Except.ok [("fused_qkv", false), ("parallel_ffn", false)]) := by
  refine ⟨?_, ?_, ?_⟩ <;> intro h <;> rw [get_ptq_model_config_resolved, h] <;> simp

/-- Witness for C3: the three supported families evaluated at explicit
models. -/
theorem get_ptq_model_config_flags_witness :
    get_ptq_model_config (mkNLModel "llama") =
      Except.ok [("fused_qkv", false), ("parallel_ffn", true)]
    ∧ get_ptq_model_config (mkNLModel "bloom") =
      Except.ok [("fused_qkv", true), ("parallel_ffn", false)]
    ∧ get_ptq_model_config (mkNLModel "chatglm_v2") =
      Except.ok [("fused_qkv", false), ("parallel_ffn", false)] :=
  ⟨(get_ptq_model_config_flags (mkNLModel "llama")).1 rfl,
   (get_ptq_model_config_flags (mkNLModel "bloom")).2.1 rfl,
   (get_ptq_model_config_flags (mkNLModel "chatglm_v2")).2.2 rfl⟩

/-- Claim C4: the lookup raises exactly when the resolved prefix is outside
the set chatglm_v2, bloom, llama; for chatglm it raises
NotImplementedError, and for every other unsupported prefix a ValueError;
either way no config record is returned. -/
theorem get_ptq_model_config_raises_iff (m : NLModel) :
    ((∃ e, get_ptq_model_config m = Except.error e) ↔
      ¬( resolved_base_model_prefix m = "chatglm_v2"
        ∨ resolved_base_model_prefix m = "bloom"
        ∨ resolved_base_model_prefix m = "llama"))
    ∧ ( resolved_base_model_prefix m = "chatglm" →
      ∃ s, get_ptq_model_config m = Except.error (PyError.notImplementedError s))
    ∧ (¬( resolved_base_model_prefix m = "chatglm"
        ∨ resolved_base_model_prefix m = "chatglm_v2"
        ∨ resolved_base_model_prefix m = "bloom"
        ∨ resolved_base_model_prefix m = "llama") →
      ∃ s, get_ptq_model_config m = Except.error (PyError.valueError s)) := by
  rw [get_ptq_model_config_resolved]
  split_ifs with h1 h2 h3 h4 <;> simp_all

/-- Witness for C4: a chatglm model and an unrelated-family model evaluated
at explicit inputs. -/
theorem get_ptq_model_config_raises_iff_witness :
    (∃ s, get_ptq_model_config (mkNLModel "chatglm") =
      Except.error (PyError.notImplementedError s))
    ∧ (∃ s, get_ptq_model_config (mkNLModel "gpt") =
      Except.error (PyError.valueError s)) :=
  ⟨(get_ptq_model_config_raises_iff (mkNLModel "chatglm")).2.1 rfl,
   (get_ptq_model_config_raises_iff (mkNLModel "gpt")).2.2 (by decide)⟩

/-- Counterexample for C5: the record returned for a llama model has two
fields, not three. -/
theorem ptq_model_config_three_fields_counterexample :
    get_ptq_model_config (mkNLModel "llama") =
      Except.ok [("fused_qkv", false), ("parallel_ffn", true)]
    ∧ ([("fused_qkv", false), ("parallel_ffn", true)] : PtqModelConfig).length ≠ 3 :=
  ⟨rfl, by decide⟩

/-- Claim C5 as amended: every config record returned by
`get_ptq_model_config` has exactly two boolean fields, `fused_qkv` and
`parallel_ffn`, selected by the model-family identifier string. -/
theorem ptq_model_config_two_fields (m : NLModel) (cfg : PtqModelConfig)
    (h : get_ptq_model_config m = Except.ok cfg) :
    cfg.map Prod.fst = ["fused_qkv", "parallel_ffn"] ∧ cfg.length = 2 := by
  rw [get_ptq_model_config_resolved] at h
  split_ifs at h <;> simp_all <;> subst h <;> exact ⟨rfl, rfl⟩

/-- Witness for C5 (amended): the llama record evaluated explicitly. -/
theorem ptq_model_config_two_fields_witness :
    ([("fused_qkv", false), ("parallel_ffn", true)] : PtqModelConfig).map Prod.fst =
      ["fused_qkv", "parallel_ffn"]
    ∧ ([("fused_qkv", false), ("parallel_ffn", true)] : PtqModelConfig).length = 2 :=
  ptq_model_config_two_fields (mkNLModel "llama")
    [("fused_qkv", false), ("parallel_ffn", true)] rfl

/-- Claim C10: for a `PrefixModelForCausalLM` the lookup dispatches on the
wrapped model prefix `model.model.base_model_prefix` — the outcome record is
unchanged under any rewrite of the wrapper's own `base_model_prefix`
attribute — while the unknown-prefix ValueError message interpolates
`model.base_model_prefix` directly, which on a wrapper is not the prefix the
dispatch resolved; for every other model the dispatch reads
`model.base_model_prefix` itself. -/
theorem get_ptq_model_config_wrapped_dispatch (m : NLModel) (p : String) :
    (m.isPrefixModelForCausalLM = true →
      resolved_base_model_prefix m = m.model.base_model_prefix
      ∧ ∀ cfg, (get_ptq_model_config m = Except.ok cfg ↔
          get_ptq_model_config { m with base_model_prefix := p } = Except.ok cfg))
    ∧ (m.isPrefixModelForCausalLM = false →
      resolved_base_model_prefix m = m.base_model_prefix)
    ∧ (m.isPrefixModelForCausalLM = true →
      ¬( m.model.base_model_prefix = "chatglm"
        ∨ m.model.base_model_prefix = "chatglm_v2"
        ∨ m.model.base_model_prefix = "bloom"
        ∨ m.model.base_model_prefix = "llama") →
      get_ptq_model_config m = Except.error (PyError.valueError
        ("Unknown base_model_prefix: " ++ m.base_model_prefix ++
          ". Supported base_model_prefix list: chatglm, bloom, llama."))) := by
  refine ⟨?_, ?_, ?_⟩
  · intro h
    refine ⟨by simp [ resolved_base_model_prefix, h], ?_⟩
    intro cfg
    rw [get_ptq_model_config_resolved, get_ptq_model_config_resolved]
    have hrw : resolved_base_model_prefix { m with base_model_prefix := p } =
        resolved_base_model_prefix m := by
      simp [ resolved_base_model_prefix, h]
    rw [hrw]
    split_ifs <;> simp
  · intro h
    simp [ resolved_base_model_prefix, h]
  · intro h hn
    push_neg at hn
    obtain ⟨h1, h2, h3, h4⟩ := hn
    have hr : resolved_base_model_prefix m = m.model.base_model_prefix := by
      simp [ resolved_base_model_prefix, h]
    rw [get_ptq_model_config_resolved, hr]
    simp [h1, h2, h3, h4]

/-- Witness for C10: a wrapper whose own attribute is the string "wrapped"
and whose wrapped model prefix is the unsupported "opt": the ValueError
message shows "wrapped", not the "opt" the dispatch used. -/
theorem get_ptq_model_config_wrapped_dispatch_witness :
    get_ptq_model_config (mkWrappedNLModel "wrapped" "opt") =
      Except.error (PyError.valueError
        ("Unknown base_model_prefix: " ++ "wrapped" ++
          ". Supported base_model_prefix list: chatglm, bloom, llama.")) :=
  (get_ptq_model_config_wrapped_dispatch (mkWrappedNLModel "wrapped" "opt") "x").2.2
    rfl (by decide)
